import Mathlib

/-!
# Presence registry, event relay and conversation store of the social-network server

A shallow embedding of `src/server/index.js` (the socket.io presence registry and
relay handlers), `src/server/routes/conversations.js` (find-or-create and
deletion of conversations), `src/server/routes/messages.js` (posting and listing
messages), `src/server/middleware/auth.js` (`verifyToken`) and the friends controller
of `src/server/controllers/users.js` (`addRemoveFriend`).

Conventions of the embedding:

* JavaScript arrays are lists; `push` appends at the end, `some` is `List.any`,
  `filter` is `List.filter`, `find` is `List.find?` (with `undefined` as `none`).
* Socket ids and user ids are strings, as the JSDoc of the handlers declares them
  (`@param {String} userId`), so `===` on them is string equality.
* Free-form payloads handed through the relay are values of `JsVal`; relay payloads
  are objects whose `receiverId` is a string.
* `console.log` calls are not part of the model.
* A handler yields the new registry together with its `Outcome`: the emissions it
  made and the error it ended with, if any.
* The conversation collection is a list in insertion order; `findOne` yields the
  first match. Queries resolve; `save`, `deleteOne` and `findByIdAndDelete` may
  reject, which is what the `catch` branches of the routes handle.
-/

namespace Sosmed

/-! ## Presence registry (`src/server/index.js`, lines 196-206) -/

/-- One element of `onlienUsers`: the object `{ socketId, userId }`. -/
structure Entry where
  socketId : String
  userId : String
deriving DecidableEq, Repr

/-- The module-level array `onlienUsers`. -/
abbrev Registry := List Entry

/-- Source:
`!onlienUsers.some((el) => el.userId === userId) && onlienUsers.push({ socketId, userId })`. -/
def addNewUser (socketId userId : String) (onlienUsers : Registry) : Registry :=
  if !onlienUsers.any (fun el => el.userId == userId) then
    onlienUsers ++ [{ socketId := socketId, userId := userId }]
  else
    onlienUsers

/-- Source: `onlienUsers = onlienUsers.filter((el) => el.socketId !== socketId)`. -/
def removeUser (socketId : String) (onlienUsers : Registry) : Registry :=
  onlienUsers.filter (fun el => el.socketId != socketId)

/-- Source: `return onlienUsers.find((el) => el.userId === userId)`. -/
def getOnlineUser (userId : String) (onlienUsers : Registry) : Option Entry :=
  onlienUsers.find? (fun el => el.userId == userId)

/-- The expression `onlienUsers.map((user) => user.userId)` of the two
presence handlers. -/
def onlineIds (onlienUsers : Registry) : List String :=
  onlienUsers.map (fun user => user.userId)

/-- One call on the registry, as issued by the `new-user` and `disconnect` handlers. -/
inductive RegistryCall where
  | add (socketId userId : String)
  | remove (socketId : String)
deriving DecidableEq, Repr

/-- Effect of one registry call. -/
def RegistryCall.run : RegistryCall → Registry → Registry
  | .add socketId userId, r => addNewUser socketId userId r
  | .remove socketId, r => removeUser socketId r

/-- Effect of a sequence of registry calls, oldest first. -/
def runCalls (calls : List RegistryCall) (r : Registry) : Registry :=
  calls.foldl (fun acc c => c.run acc) r

/-! ## Relay payloads and emissions -/

/-- A JavaScript value as it travels through a socket.io event payload. An object
is its list of own properties (each key once). -/
inductive JsVal where
  | undefined
  | null
  | bool (b : Bool)
  | num (n : Int)
  | str (s : String)
  | arr (items : List JsVal)
  | obj (fields : List (String × JsVal))

/-- The member access `v._id` or `v.firstName` on a payload value: reading a property
of `undefined` or `null` throws a `TypeError`, an object yields the property or
`undefined`, and the other values have no such property. -/
def JsVal.prop (v : JsVal) (key : String) : Except String JsVal :=
  match v with
  | .undefined => .error ("TypeError: Cannot read properties of undefined (reading " ++ key ++ ")")
  | .null => .error ("TypeError: Cannot read properties of null (reading " ++ key ++ ")")
  | .obj fields => .ok ((fields.lookup key).getD .undefined)
  | _ => .ok .undefined

/-- Where an emission is addressed: `socket.emit(...)` goes to that socket,
`io.to(name).emit(...)` to the room `name`. -/
inductive Target where
  | socket (id : String)
  | room (name : String)
deriving DecidableEq, Repr

/-- One `emit` call made by a handler. -/
structure Emission where
  target : Target
  event : String
  payload : JsVal

/-- Whether an emission is delivered to the connection with socket id `conn`.
Every socket is a member of the room named by its own id, and no handler of the
server joins any other room. -/
def Emission.reaches (conn : String) (e : Emission) : Bool :=
  match e.target with
  | .socket id => id == conn
  | .room name => name == conn

/-- What running a handler does besides changing the registry: the emissions made,
in order, and the error it ended with, if any (a thrown exception, or for the
`async` handler the rejection of its promise). -/
structure Outcome where
  emitted : List Emission
  error : Option String

/-- Modelled from the spec: `models/User.js` is not among the sources; the relay reads
only the sender's display name `firstName` from a user document, and the friends
controller reads and writes its `friends` array of user ids. -/
structure User where
  _id : String
  firstName : String
  friends : List String := []
deriving DecidableEq, Repr

/-- The call `User.findById(senderId)` as seen by the awaiting handler: the promise
rejects with a message, or resolves to `null` or to a document. -/
abbrev UserStore := String → Except String (Option User)

/-! ## Connection handlers (`src/server/index.js`, lines 90-193) -/

/-- Handler of `new-user`: `addNewUser(socket.id, userId)` followed by
`socket.emit('is-online', onlienUsers.map((user) => user.userId))`. -/
def onNewUser (socketId userId : String) (onlienUsers : Registry) : Registry × Outcome :=
  let users := addNewUser socketId userId onlienUsers
  (users,
   { emitted := [{ target := .socket socketId, event := "is-online",
                   payload := .arr ((onlineIds users).map JsVal.str) }],
     error := none })

/-- Handler of `disconnect`: `removeUser(socket.id)` followed by
`socket.emit('is-online', onlienUsers.map((user) => user.userId))`. -/
def onDisconnect (socketId : String) (onlienUsers : Registry) : Registry × Outcome :=
  let users := removeUser socketId onlienUsers
  (users,
   { emitted := [{ target := .socket socketId, event := "is-online",
                   payload := .arr ((onlineIds users).map JsVal.str) }],
     error := none })

/-- Handler of `send-notification`. The receiver is looked up, then the sender
document is awaited, and only then comes `if (!receiver) return`. -/
def onSendNotification (findById : UserStore) (senderId receiverId : String) (type : JsVal)
    (onlienUsers : Registry) : Outcome :=
  let receiver := getOnlineUser receiverId onlienUsers
  match findById senderId with
  | .error msg => { emitted := [], error := some msg }
  | .ok user =>
    match receiver with
    | none => { emitted := [], error := none }
    | some rcv =>
      match user with
      | none =>
        { emitted := [],
          error := some "TypeError: Cannot read properties of null (reading firstName)" }
      | some doc =>
        { emitted := [{ target := .room rcv.socketId, event := "get-notification",
                        payload := .obj [("userName", .str doc.firstName), ("type", type)] }],
          error := none }

/-- Handler of `send-message`: two emissions to the receiver's socket id, the
second one reading `data._id`. -/
def onSendMessage (receiverId : String) (data : JsVal) (onlienUsers : Registry) : Outcome :=
  match getOnlineUser receiverId onlienUsers with
  | none => { emitted := [], error := none }
  | some rcv =>
    let first : Emission :=
      { target := .room rcv.socketId, event := "get-message", payload := data }
    match data.prop "_id" with
    | .error msg => { emitted := [first], error := some msg }
    | .ok msgId =>
      { emitted := [first,
                    { target := .room rcv.socketId, event := "message-seen",
                      payload := .obj [("msgId", msgId)] }],
        error := none }

/-- Handler of `is-typing`. -/
def onIsTyping (typing : JsVal) (receiverId : String) (onlienUsers : Registry) : Outcome :=
  match getOnlineUser receiverId onlienUsers with
  | none => { emitted := [], error := none }
  | some rcv =>
    { emitted := [{ target := .room rcv.socketId, event := "start-typing",
                    payload := .obj [("typing", typing)] }],
      error := none }

/-- Handler of `not-typing`. -/
def onNotTyping (typing : JsVal) (receiverId : String) (onlienUsers : Registry) : Outcome :=
  match getOnlineUser receiverId onlienUsers with
  | none => { emitted := [], error := none }
  | some rcv =>
    { emitted := [{ target := .room rcv.socketId, event := "stop-typing",
                    payload := .obj [("typing", typing)] }],
      error := none }

/-- Handler of `send-seen`. -/
def onSendSeen (seen : JsVal) (receiverId : String) (onlienUsers : Registry) : Outcome :=
  match getOnlineUser receiverId onlienUsers with
  | none => { emitted := [], error := none }
  | some rcv =>
    { emitted := [{ target := .room rcv.socketId, event := "get-seen",
                    payload := .obj [("seen", seen)] }],
      error := none }

/-- Handler of `send-newMsg-count`. -/
def onSendNewMsgCount (receiverId : String) (onlienUsers : Registry) : Outcome :=
  match getOnlineUser receiverId onlienUsers with
  | none => { emitted := [], error := none }
  | some rcv =>
    { emitted := [{ target := .room rcv.socketId, event := "get-newMsg-count",
                    payload := .obj [("isNewMsg", .bool true)] }],
      error := none }

/-- The six relay events with their destructured payloads. -/
inductive RelayEvent where
  | sendNotification (senderId receiverId : String) (type : JsVal)
  | sendMessage (receiverId : String) (data : JsVal)
  | isTyping (typing : JsVal) (receiverId : String)
  | notTyping (typing : JsVal) (receiverId : String)
  | sendSeen (seen : JsVal) (receiverId : String)
  | sendNewMsgCount (receiverId : String)

/-- The `receiverId` of a relay payload. -/
def RelayEvent.receiverId : RelayEvent → String
  | .sendNotification _ receiverId _ => receiverId
  | .sendMessage receiverId _ => receiverId
  | .isTyping _ receiverId => receiverId
  | .notTyping _ receiverId => receiverId
  | .sendSeen _ receiverId => receiverId
  | .sendNewMsgCount receiverId => receiverId

/-- An event arriving on a connection. -/
inductive Event where
  | newUser (userId : String)
  | relay (ev : RelayEvent)
  | disconnect

/-- The relay handlers registered on the connection `_socketId`. None of them reads
`socket`, and none assigns `onlienUsers`. -/
def onRelay (findById : UserStore) (_socketId : String) (ev : RelayEvent)
    (onlienUsers : Registry) : Registry × Outcome :=
  match ev with
  | .sendNotification senderId receiverId type =>
    (onlienUsers, onSendNotification findById senderId receiverId type onlienUsers)
  | .sendMessage receiverId data => (onlienUsers, onSendMessage receiverId data onlienUsers)
  | .isTyping typing receiverId => (onlienUsers, onIsTyping typing receiverId onlienUsers)
  | .notTyping typing receiverId => (onlienUsers, onNotTyping typing receiverId onlienUsers)
  | .sendSeen seen receiverId => (onlienUsers, onSendSeen seen receiverId onlienUsers)
  | .sendNewMsgCount receiverId => (onlienUsers, onSendNewMsgCount receiverId onlienUsers)

/-- Dispatch of one event arriving on the connection `socketId`, as wired by
`io.on('connection', (socket) => ...)`. -/
def handle (findById : UserStore) (socketId : String) (ev : Event)
    (onlienUsers : Registry) : Registry × Outcome :=
  match ev with
  | .newUser userId => onNewUser socketId userId onlienUsers
  | .relay r => onRelay findById socketId r onlienUsers
  | .disconnect => onDisconnect socketId onlienUsers

/-- A user store whose lookup rejects, as `findById` does for an id that is not
a valid ObjectId. -/
def rejectingStore : UserStore :=
  fun _ => .error "CastError: Cast to ObjectId failed"

/-- A user store holding the single user `u1`. -/
def oneUserStore : UserStore :=
  fun id => if id == "u1" then .ok (some { _id := "u1", firstName := "Ann" }) else .ok none

/-! ## Conversation store (`src/server/routes/conversations.js`) -/

/-- Modelled from the spec: `models/Conversation.js` is not among the sources; a
conversation document carries its `_id`, the `members` array, the summary fields
written by the message route (`latestText`, `senderId`) and `checked`, default true. -/
structure Conversation where
  _id : String
  members : List String
  latestText : Option String
  senderId : Option String
  checked : Bool
deriving DecidableEq, Repr

/-- The conversation collection, in natural (insertion) order. -/
abbrev ConvStore := List Conversation

/-- The filter `{ members: { $all: [a, b] } }`: the `members` array holds `a` and
holds `b`. -/
def matchesAll (a b : String) (c : Conversation) : Bool :=
  c.members.contains a && c.members.contains b

/-- Source: `Conversation.findOne({ members: { $all: [a, b] } })`, first match or null. -/
def findOneAll (a b : String) (store : ConvStore) : Option Conversation :=
  store.find? (matchesAll a b)

/-- What the database contributes to one `POST /conversations`: the `_id` given to
the document built by `new Conversation(...)`, and whether `save()` rejects. -/
structure SaveEnv where
  newId : String
  saveError : Option String
deriving Repr

/-- The responses of `POST /conversations`. -/
inductive PostResponse where
  /-- Status 200 with `{ existingConversation: true, _id }`. -/
  | existing (_id : String)
  /-- Status 200 with `{ ...savedConvo, existingConversation: false }`. -/
  | created (savedConvo : Conversation)
  /-- Status 500 with `{ message }`. -/
  | failed (message : String)
deriving DecidableEq, Repr

/-- The flag `existingConversation` of a response, when it has one. -/
def PostResponse.existingConversation : PostResponse → Option Bool
  | .existing _ => some true
  | .created _ => some false
  | .failed _ => none

/-- The id of the conversation a successful response returns. -/
def PostResponse.convId : PostResponse → Option String
  | .existing id => some id
  | .created doc => some doc._id
  | .failed _ => none

/-- Handler of `POST /conversations` with body `{ senderId, receiverId }`. -/
def postConversation (env : SaveEnv) (senderId receiverId : String) (store : ConvStore) :
    ConvStore × PostResponse :=
  match findOneAll senderId receiverId store with
  | some existingConvs => (store, .existing existingConvs._id)
  | none =>
    let newConversation : Conversation :=
      { _id := env.newId, members := [senderId, receiverId],
        latestText := none, senderId := none, checked := true }
    match env.saveError with
    | none => (store ++ [newConversation], .created newConversation)
    | some message => (store, .failed message)

/-- Handler of `DELETE /conversations/:userId/:friendId`:
`Conversation.deleteOne({ members: { $all: [userId, friendId] } })` removes the first
match; a rejected call leaves the collection as it was. -/
def deleteByPair (dbError : Option String) (userId friendId : String) (store : ConvStore) :
    ConvStore :=
  match dbError with
  | none => store.eraseP (matchesAll userId friendId)
  | some _ => store

/-- Handler of `PUT /conversations/:convoId/delete-convo`:
`Conversation.findByIdAndDelete(convoId)`. -/
def deleteById (dbError : Option String) (convoId : String) (store : ConvStore) : ConvStore :=
  match dbError with
  | none => store.eraseP (fun c => c._id == convoId)
  | some _ => store

/-- One request to the three routes that create or delete conversations. -/
inductive ConvCall where
  | post (env : SaveEnv) (senderId receiverId : String)
  | deletePair (dbError : Option String) (userId friendId : String)
  | deleteId (dbError : Option String) (convoId : String)
deriving Repr

/-- Effect of one request on the collection. -/
def ConvCall.run : ConvCall → ConvStore → ConvStore
  | .post env senderId receiverId, store => (postConversation env senderId receiverId store).1
  | .deletePair dbError userId friendId, store => deleteByPair dbError userId friendId store
  | .deleteId dbError convoId, store => deleteById dbError convoId store

/-- Effect of a sequence of requests handled one after the other, oldest first. -/
def runConvCalls (calls : List ConvCall) (store : ConvStore) : ConvStore :=
  calls.foldl (fun acc c => c.run acc) store

/-- Two conversations have the same set of members. -/
def sameMemberSet (c d : Conversation) : Prop :=
  ∀ x, x ∈ c.members ↔ x ∈ d.members

/-- The call sequence of a reconnect that overtakes the old connection's disconnect:
`addNewUser(h1, u)`, `addNewUser(h2, u)`, `removeUser(h1)`. -/
def reconnectSequence (h1 h2 u : String) (onlienUsers : Registry) : Registry :=
  removeUser h1 (addNewUser h2 u (addNewUser h1 u onlienUsers))

/-! ## Message route (`src/server/routes/messages.js`) -/

/-- Modelled from the spec: `models/Message.js` is not among the sources; a message
document carries its `_id`, the `conversationId` it references (absent when the
request body has none), the `sender` and the `text`. -/
structure Message where
  _id : String
  conversationId : Option String
  sender : String
  text : String
deriving DecidableEq, Repr

/-- The request body `req.body` of `POST /messages/:conversationId`: the message
object `{ conversationId, sender, text }`, whose `conversationId` may be left out. -/
structure MessageBody where
  conversationId : Option String
  sender : String
  text : String
deriving DecidableEq, Repr

/-- What the database contributes to one `POST /messages/:conversationId`: the `_id`
given to the document built by `new Message(req.body)`, whether
`Conversation.findByIdAndUpdate` rejects, and whether `newMessage.save()` rejects. -/
structure MessageEnv where
  newId : String
  updateError : Option String
  saveError : Option String
deriving Repr

/-- The responses of `POST /messages/:conversationId`. -/
inductive MessageResponse where
  /-- Status 200 with the saved message. -/
  | saved (savedMessage : Message)
  /-- Status 500 with `error.message`. -/
  | failed (message : String)
deriving DecidableEq, Repr

/-- The HTTP status of a message response. -/
def MessageResponse.status : MessageResponse → Nat
  | .saved _ => 200
  | .failed _ => 500

/-- Source: `Conversation.findByIdAndUpdate(id, update)`: the document with that
`_id`, if there is one, is replaced by its updated version; otherwise nothing changes
(the call resolves to null). -/
def findByIdAndUpdate (id : String) (update : Conversation → Conversation) :
    ConvStore → ConvStore
  | [] => []
  | c :: rest =>
    if c._id == id then update c :: rest else c :: findByIdAndUpdate id update rest

/-- Source: `Conversation.findById(id)` on the collection. -/
def findConversationById (id : String) (store : ConvStore) : Option Conversation :=
  store.find? (fun c => c._id == id)

/-- The update document
`{ latestText: req.body.text, checked: false, senderId: req.body.sender }` applied to
a conversation. -/
def summaryUpdate (body : MessageBody) (c : Conversation) : Conversation :=
  { c with latestText := some body.text, checked := false, senderId := some body.sender }

/-- Handler of `POST /messages/:conversationId`. The message is built from the body
alone, the conversation named by the route parameter gets
`{ latestText: req.body.text, checked: false, senderId: req.body.sender }`, and
after that the message is saved. Any rejection ends in the `catch` branch. -/
def postMessage (env : MessageEnv) (conversationId : String) (body : MessageBody)
    (convs : ConvStore) (msgs : List Message) :
    (ConvStore × List Message) × MessageResponse :=
  let newMessage : Message :=
    { _id := env.newId, conversationId := body.conversationId, sender := body.sender,
      text := body.text }
  match env.updateError with
  | some message => ((convs, msgs), .failed message)
  | none =>
    let updated := findByIdAndUpdate conversationId (summaryUpdate body) convs
    match env.saveError with
    | some message => ((updated, msgs), .failed message)
    | none => ((updated, msgs ++ [newMessage]), .saved newMessage)

/-- Handler of `GET /messages/:conversationId`:
`Message.find({ conversationId: req.params.conversationId })`. -/
def getMessages (conversationId : String) (msgs : List Message) : List Message :=
  msgs.filter (fun m => m.conversationId == some conversationId)

/-- A collection with the single conversation `c1` between `ann` and `bob`, as
`POST /conversations` creates it. -/
def oneConversation : ConvStore :=
  [{ _id := "c1", members := ["ann", "bob"], latestText := none, senderId := none,
     checked := true }]

/-! ## Token check (`src/server/middleware/auth.js`) -/

/-- The characters `String.prototype.trimLeft` removes: the white space and line
terminator code points of ECMAScript. -/
def isJsWhiteSpace (c : Char) : Bool :=
  let n := c.toNat
  n == 0x09 || n == 0x0A || n == 0x0B || n == 0x0C || n == 0x0D || n == 0x20
    || n == 0xA0 || n == 0x1680 || (0x2000 ≤ n && n ≤ 0x200A)
    || n == 0x2028 || n == 0x2029 || n == 0x202F || n == 0x205F || n == 0x3000
    || n == 0xFEFF

/-- Source: `if (token.startsWith('Bearer ')) token = token.slice(7, token.length).trimLeft()`;
the value of `token` afterwards. -/
def bearerToken (token : String) : String :=
  if "Bearer ".data.isPrefixOf token.data then
    String.mk ((token.data.drop 7).dropWhile isJsWhiteSpace)
  else
    token

/-- The call `jwt.verify(token, process.env.JWT_SECRET)` of the `jsonwebtoken`
package: it throws `jwt must be provided` for an empty token before looking at
anything else; what it does with any other token (payload or thrown message) is
`decode`. -/
def jwtVerify (decode : String → Except String JsVal) (token : String) :
    Except String JsVal :=
  if token = "" then .error "jwt must be provided" else decode token

/-- What `verifyToken` did to the request: the value stored in `req.user`, whether
`next()` was called, and the response sent, if any. -/
structure AuthResult where
  reqUser : Option JsVal
  nextCalled : Bool
  status : Option Nat
  body : Option JsVal

/-- Source: `verifyToken(req, res, next)`, with `header` the result of
`req.header('Authorization')` (`none` for undefined). `!token` holds for undefined
and for the empty string. -/
def verifyToken (decode : String → Except String JsVal) (header : Option String) :
    AuthResult :=
  match header with
  | none =>
    { reqUser := none, nextCalled := false, status := some 403,
      body := some (.str "Access Denied") }
  | some token =>
    if token = "" then
      { reqUser := none, nextCalled := false, status := some 403,
        body := some (.str "Access Denied") }
    else
      match jwtVerify decode (bearerToken token) with
      | .ok verified =>
        { reqUser := some verified, nextCalled := true, status := none, body := none }
      | .error message =>
        { reqUser := none, nextCalled := false, status := some 500,
          body := some (.obj [("error", .str message)]) }

/-- A token decoder that accepts the one token `good.jwt.token`. -/
def sampleDecode : String → Except String JsVal :=
  fun token =>
    if token = "good.jwt.token" then .ok (.obj [("id", .str "u1")])
    else .error "invalid signature"

/-! ## Friends controller (`src/server/controllers/users.js`, lines 74-112) -/

/-- Source: `User.findById(id)` on the user collection. -/
def findUserById (id : String) (users : List User) : Option User :=
  users.find? (fun d => d._id == id)

/-- Source: `doc.save()` after a change of `doc.friends`: the stored document with
that `_id` gets the new `friends` array. -/
def saveFriends (doc : User) (users : List User) : List User :=
  users.map (fun d => if d._id == doc._id then { d with friends := doc.friends } else d)

/-- One element of `formattedFriends`, with the fields of the model. -/
structure FormattedFriend where
  _id : String
  firstName : String
deriving DecidableEq, Repr

/-- The responses of `addRemoveFriend`. -/
inductive FriendsResponse where
  /-- Status 200 with `formattedFriends`. -/
  | ok (formattedFriends : List FormattedFriend)
  /-- Status 404 with `{ message }`. -/
  | notFound (message : String)
deriving DecidableEq, Repr

/-- Whether the two `save()` calls of `addRemoveFriend` reject. -/
structure FriendsEnv where
  userSaveError : Option String
  friendSaveError : Option String
deriving Repr

/-- Source: the `if (user.friends.includes(friendId)) ... else ...` statement of
`addRemoveFriend`, on the two loaded documents. In the first branch the callback of
the second `filter` names its parameter `id`, so `id !== id` compares each element
with itself. -/
def toggleFriend (id friendId : String) (user friend : User) : User × User :=
  if user.friends.contains friendId then
    ({ user with friends := user.friends.filter (fun id => id != friendId) },
     { friend with friends := friend.friends.filter (fun id => id != id) })
  else
    ({ user with friends := user.friends ++ [friendId] },
     { friend with friends := friend.friends ++ [id] })

/-- Source: `addRemoveFriend(req, res)` with `req.params = { id, friendId }`. A null
document makes the access to `.friends` throw, and every error ends in the `catch`
branch with status 404. -/
def addRemoveFriend (env : FriendsEnv) (id friendId : String) (users : List User) :
    List User × FriendsResponse :=
  match findUserById id users, findUserById friendId users with
  | none, _ =>
    (users, .notFound "TypeError: Cannot read properties of null (reading friends)")
  | some _, none =>
    (users, .notFound "TypeError: Cannot read properties of null (reading friends)")
  | some user, some friend =>
    let docs := toggleFriend id friendId user friend
    match env.userSaveError with
    | some message => (users, .notFound message)
    | none =>
      let afterUser := saveFriends docs.1 users
      match env.friendSaveError with
      | some message => (afterUser, .notFound message)
      | none =>
        let afterFriend := saveFriends docs.2 afterUser
        match docs.1.friends.mapM (fun fid => findUserById fid afterFriend) with
        | none =>
          (afterFriend,
           .notFound "TypeError: Cannot destructure property _id of null")
        | some friends =>
          (afterFriend,
           .ok (friends.map (fun d => { _id := d._id, firstName := d.firstName })))

/-- Three users: `a` and `b` are friends of each other, and so are `b` and `c`. -/
def sampleUsers : List User :=
  [{ _id := "a", firstName := "Ann", friends := ["b"] },
   { _id := "b", firstName := "Bob", friends := ["a", "c"] },
   { _id := "c", firstName := "Cat", friends := ["b"] }]

/-! # Theorems -/

/-! ### Registry lemmas -/

theorem any_userId_eq_false_iff (u : String) (r : Registry) :
    r.any (fun el => el.userId == u) = false ↔ ∀ e ∈ r, e.userId ≠ u := by
  induction r with
  | nil => simp
  | cons a t ih => simp [List.any_cons, ih]

theorem addNewUser_of_absent (h u : String) (r : Registry)
    (habs : ∀ e ∈ r, e.userId ≠ u) :
    addNewUser h u r = r ++ [{ socketId := h, userId := u }] := by
  have hany := (any_userId_eq_false_iff u r).2 habs
  simp [addNewUser, hany]

theorem addNewUser_of_present (h u : String) (r : Registry)
    (hpres : ∃ e ∈ r, e.userId = u) :
    addNewUser h u r = r := by
  have hany : r.any (fun el => el.userId == u) = true := by
    obtain ⟨e, he, hu⟩ := hpres
    exact List.any_eq_true.2 ⟨e, he, by simp [hu]⟩
  simp [addNewUser, hany]

theorem find_absent (u : String) (r : Registry)
    (habs : ∀ e ∈ r, e.userId ≠ u) :
    r.find? (fun el => el.userId == u) = none := by
  induction r with
  | nil => rfl
  | cons a t ih =>
    have ha : a.userId ≠ u := habs a (List.mem_cons_self _ _)
    have ht : ∀ e ∈ t, e.userId ≠ u := fun e he => habs e (List.mem_cons_of_mem _ he)
    simp [List.find?_cons, ha, ih ht]

theorem nodup_ids_addNewUser (h u : String) (r : Registry)
    (hr : (onlineIds r).Nodup) : (onlineIds (addNewUser h u r)).Nodup := by
  by_cases hp : ∃ e ∈ r, e.userId = u
  · rw [addNewUser_of_present h u r hp]; exact hr
  · have habs : ∀ e ∈ r, e.userId ≠ u := by
      intro e he hu
      exact hp ⟨e, he, hu⟩
    rw [addNewUser_of_absent h u r habs]
    unfold onlineIds at *
    rw [List.map_append, List.nodup_append]
    refine ⟨hr, by simp, ?_⟩
    intro a ha hb
    simp only [List.map_cons, List.map_nil, List.mem_singleton] at hb
    obtain ⟨e, he, hea⟩ := List.mem_map.1 ha
    exact habs e he (hea.trans hb)

theorem nodup_ids_removeUser (h : String) (r : Registry)
    (hr : (onlineIds r).Nodup) : (onlineIds (removeUser h r)).Nodup := by
  unfold onlineIds removeUser at *
  exact hr.sublist ((List.filter_sublist r).map _)

theorem nodup_ids_runCalls (calls : List RegistryCall) :
    ∀ r : Registry, (onlineIds r).Nodup → (onlineIds (runCalls calls r)).Nodup := by
  induction calls with
  | nil => intro r hr; exact hr
  | cons c cs ih =>
    intro r hr
    have hstep : (onlineIds (c.run r)).Nodup := by
      cases c with
      | add s u => exact nodup_ids_addNewUser s u r hr
      | remove s => exact nodup_ids_removeUser s r hr
    exact ih (c.run r) hstep

theorem find_filter_of_found (h u : String) (r : Registry) (e : Entry)
    (hfound : r.find? (fun el => el.userId == u) = some e) (hne : e.socketId ≠ h) :
    (r.filter (fun el => el.socketId != h)).find? (fun el => el.userId == u) = some e := by
  induction r with
  | nil => simp at hfound
  | cons a t ih =>
    by_cases hau : a.userId = u
    · have hae : a = e := by simpa [List.find?_cons, hau] using hfound
      subst hae
      simp [List.filter_cons, hne, List.find?_cons, hau]
    · have ht : t.find? (fun el => el.userId == u) = some e := by
        simpa [List.find?_cons, hau] using hfound
      by_cases hah : a.socketId = h
      · simp [List.filter_cons, hah, ih ht]
      · simp [List.filter_cons, hah, List.find?_cons, hau, ih ht]

/-! ## Claims on the presence registry -/

theorem lookup_kept_by_addNewUser (s v u : String) (r : Registry) (e : Entry)
    (hfound : getOnlineUser u r = some e) :
    getOnlineUser u (addNewUser s v r) = some e := by
  by_cases hp : ∃ x ∈ r, x.userId = v
  · rw [addNewUser_of_present s v r hp]; exact hfound
  · have habs : ∀ x ∈ r, x.userId ≠ v := fun x hx hv => hp ⟨x, hx, hv⟩
    rw [addNewUser_of_absent s v r habs]
    unfold getOnlineUser at hfound ⊢
    rw [List.find?_append, hfound]
    rfl

theorem lookup_kept_by_calls (u : String) (e : Entry) (calls : List RegistryCall) :
    ∀ r : Registry, getOnlineUser u r = some e →
      (∀ c ∈ calls, c ≠ .remove e.socketId) →
      getOnlineUser u (runCalls calls r) = some e := by
  induction calls with
  | nil => intro r hfound _; exact hfound
  | cons c cs ih =>
    intro r hfound hcalls
    have hrest : ∀ d ∈ cs, d ≠ .remove e.socketId :=
      fun d hd => hcalls d (List.mem_cons_of_mem _ hd)
    have hc := hcalls c (List.mem_cons_self _ _)
    have hstep : getOnlineUser u (c.run r) = some e := by
      cases c with
      | add s v => exact lookup_kept_by_addNewUser s v u r e hfound
      | remove s =>
        have hne : e.socketId ≠ s := by
          intro heq
          exact hc (by rw [heq])
        exact find_filter_of_found s u r e hfound hne
    exact ih (c.run r) hstep hrest

/-- C1. First registration wins: when `u` has no entry, after `addNewUser h1 u`, any
calls in between other than `removeUser h1`, and then `addNewUser h2 u`, the lookup
`getOnlineUser u` yields the entry with socket id `h1`, and the second registration
does not change the registry. -/
theorem first_registration_wins (r : Registry) (u h1 h2 : String)
    (between : List RegistryCall)
    (hfresh : ∀ e ∈ r, e.userId ≠ u)
    (hbetween : ∀ c ∈ between, c ≠ .remove h1) :
    getOnlineUser u (addNewUser h2 u (runCalls between (addNewUser h1 u r)))
        = some { socketId := h1, userId := u }
      ∧ addNewUser h2 u (runCalls between (addNewUser h1 u r))
          = runCalls between (addNewUser h1 u r) := by
  have hfirst : getOnlineUser u (addNewUser h1 u r)
      = some { socketId := h1, userId := u } := by
    rw [addNewUser_of_absent h1 u r hfresh]
    unfold getOnlineUser
    rw [List.find?_append, find_absent u r hfresh]
    simp
  have hkept := lookup_kept_by_calls u { socketId := h1, userId := u } between
    (addNewUser h1 u r) hfirst hbetween
  have hsecond : addNewUser h2 u (runCalls between (addNewUser h1 u r))
      = runCalls between (addNewUser h1 u r) := by
    apply addNewUser_of_present
    unfold getOnlineUser at hkept
    exact ⟨{ socketId := h1, userId := u }, List.mem_of_find?_eq_some hkept, rfl⟩
  exact ⟨by rw [hsecond]; exact hkept, hsecond⟩

theorem first_registration_wins_witness :
    (∀ e ∈ ([{ socketId := "s0", userId := "bob" }] : Registry), e.userId ≠ "alice")
      ∧ (∀ c ∈ [RegistryCall.add "s3" "carol", RegistryCall.remove "s0",
                RegistryCall.add "s4" "alice"], c ≠ RegistryCall.remove "s1")
      ∧ getOnlineUser "alice"
          (addNewUser "s2" "alice"
            (runCalls [.add "s3" "carol", .remove "s0", .add "s4" "alice"]
              (addNewUser "s1" "alice" [{ socketId := "s0", userId := "bob" }])))
          = some { socketId := "s1", userId := "alice" }
      ∧ addNewUser "s2" "alice"
          (runCalls [.add "s3" "carol", .remove "s0", .add "s4" "alice"]
            (addNewUser "s1" "alice" [{ socketId := "s0", userId := "bob" }]))
          = runCalls [.add "s3" "carol", .remove "s0", .add "s4" "alice"]
              (addNewUser "s1" "alice" [{ socketId := "s0", userId := "bob" }]) :=
  ⟨by decide, by decide,
   first_registration_wins [{ socketId := "s0", userId := "bob" }] "alice" "s1" "s2"
     [.add "s3" "carol", .remove "s0", .add "s4" "alice"] (by decide) (by decide)⟩

/-- C2. `removeUser h` keeps exactly the entries whose socket id differs from `h`, in
their original order (it is a sublist, every such entry keeps its number of
occurrences, and no entry with socket id `h` stays); so a user whose looked-up
entry has another socket id is looked up to the same entry afterwards, and the
call changes nothing when no entry has socket id `h`. -/
theorem removeUser_frame (r : Registry) (h : String) :
    (removeUser h r).Sublist r
      ∧ (∀ e : Entry, e.socketId ≠ h → (removeUser h r).count e = r.count e)
      ∧ (∀ e ∈ removeUser h r, e.socketId ≠ h)
      ∧ (∀ (u : String) (e : Entry), getOnlineUser u r = some e → e.socketId ≠ h →
          getOnlineUser u (removeUser h r) = some e)
      ∧ ((∀ e ∈ r, e.socketId ≠ h) → removeUser h r = r) := by
  refine ⟨List.filter_sublist r, ?_, ?_, ?_, ?_⟩
  · intro e he
    unfold removeUser
    rw [List.count_filter]
    simpa using he
  · intro e he
    unfold removeUser at he
    simpa using (List.mem_filter.1 he).2
  · intro u e hfound hne
    exact find_filter_of_found h u r e hfound hne
  · intro hall
    unfold removeUser
    rw [List.filter_eq_self]
    intro e he
    simpa using hall e he

theorem removeUser_frame_witness :
    getOnlineUser "bob"
        (removeUser "s1"
          [{ socketId := "s1", userId := "alice" }, { socketId := "s2", userId := "bob" }])
        = some { socketId := "s2", userId := "bob" }
      ∧ removeUser "s9"
          [{ socketId := "s1", userId := "alice" }, { socketId := "s2", userId := "bob" }]
        = [{ socketId := "s1", userId := "alice" }, { socketId := "s2", userId := "bob" }] :=
  ⟨(removeUser_frame
      [{ socketId := "s1", userId := "alice" }, { socketId := "s2", userId := "bob" }]
      "s1").2.2.2.1 "bob" { socketId := "s2", userId := "bob" } (by decide) (by decide),
   (removeUser_frame
      [{ socketId := "s1", userId := "alice" }, { socketId := "s2", userId := "bob" }]
      "s9").2.2.2.2 (by decide)⟩

/-- C3. In every registry reached from the empty one by `addNewUser` and `removeUser`
calls, no two entries have the same user id. -/
theorem registry_userIds_unique (calls : List RegistryCall) :
    (runCalls calls []).Pairwise (fun a b => a.userId ≠ b.userId) := by
  have hnodup : (onlineIds (runCalls calls [])).Nodup :=
    nodup_ids_runCalls calls [] (by simp [onlineIds])
  unfold onlineIds List.Nodup at hnodup
  exact List.pairwise_map.1 hnodup

/-! ### Relay lemmas -/

theorem getOnlineUser_eq_none_iff (u : String) (r : Registry) :
    getOnlineUser u r = none ↔ ∀ e ∈ r, e.userId ≠ u := by
  unfold getOnlineUser
  rw [List.find?_eq_none]
  constructor
  · intro h e he
    simpa using h e he
  · intro h e he
    simpa using h e he

theorem getOnlineUser_isSome_iff (u : String) (r : Registry) :
    (∃ rcv, getOnlineUser u r = some rcv) ↔ ∃ e ∈ r, e.userId = u := by
  constructor
  · rintro ⟨rcv, h⟩
    unfold getOnlineUser at h
    exact ⟨rcv, List.mem_of_find?_eq_some h, by simpa using List.find?_some h⟩
  · rintro ⟨e, he, hu⟩
    cases hfind : getOnlineUser u r with
    | none => exact absurd hu ((getOnlineUser_eq_none_iff u r).1 hfind e he)
    | some rcv => exact ⟨rcv, rfl⟩

theorem reaches_room_other (name conn event : String) (payload : JsVal) (h : conn ≠ name) :
    Emission.reaches conn { target := .room name, event := event, payload := payload }
      = false := by
  simp only [Emission.reaches]
  simpa using fun hh => h hh.symm

/-- When the receiver has no entry and the sender lookup resolves (to a document
or to `null`), every relay handler emits nothing, ends without error and leaves
the registry as it was. -/
theorem relay_miss_silent_when_lookup_resolves (findById : UserStore) (s : String)
    (ev : RelayEvent) (r : Registry)
    (hmiss : ∀ e ∈ r, e.userId ≠ ev.receiverId)
    (hres : ∀ senderId receiverId type, ev = .sendNotification senderId receiverId type →
      ∃ user, findById senderId = .ok user) :
    handle findById s (.relay ev) r = (r, { emitted := [], error := none }) := by
  have hnone := (getOnlineUser_eq_none_iff ev.receiverId r).2 hmiss
  cases ev with
  | sendNotification senderId receiverId type =>
    obtain ⟨user, hu⟩ := hres senderId receiverId type rfl
    simp only [RelayEvent.receiverId] at hnone
    simp [handle, onRelay, onSendNotification, hu, hnone]
  | sendMessage receiverId data =>
    simp only [RelayEvent.receiverId] at hnone
    simp [handle, onRelay, onSendMessage, hnone]
  | isTyping typing receiverId =>
    simp only [RelayEvent.receiverId] at hnone
    simp [handle, onRelay, onIsTyping, hnone]
  | notTyping typing receiverId =>
    simp only [RelayEvent.receiverId] at hnone
    simp [handle, onRelay, onNotTyping, hnone]
  | sendSeen seen receiverId =>
    simp only [RelayEvent.receiverId] at hnone
    simp [handle, onRelay, onSendSeen, hnone]
  | sendNewMsgCount receiverId =>
    simp only [RelayEvent.receiverId] at hnone
    simp [handle, onRelay, onSendNewMsgCount, hnone]

/-- Every emission of a relay handler is addressed to the room named by the socket
id of the looked-up receiver. -/
theorem relay_emits_only_to_receiver (findById : UserStore) (s : String) (ev : RelayEvent)
    (r : Registry) (rcv : Entry) (hrcv : getOnlineUser ev.receiverId r = some rcv) :
    ∀ e ∈ (handle findById s (.relay ev) r).2.emitted, e.target = .room rcv.socketId := by
  cases ev with
  | sendNotification senderId receiverId type =>
    simp only [RelayEvent.receiverId] at hrcv
    simp only [handle, onRelay, onSendNotification, hrcv]
    cases findById senderId with
    | error msg => simp
    | ok user =>
      cases user with
      | none => simp
      | some doc => simp
  | sendMessage receiverId data =>
    simp only [RelayEvent.receiverId] at hrcv
    simp only [handle, onRelay, onSendMessage, hrcv]
    cases data.prop "_id" with
    | error msg => simp
    | ok msgId => simp
  | isTyping typing receiverId =>
    simp only [RelayEvent.receiverId] at hrcv
    simp [handle, onRelay, onIsTyping, hrcv]
  | notTyping typing receiverId =>
    simp only [RelayEvent.receiverId] at hrcv
    simp [handle, onRelay, onNotTyping, hrcv]
  | sendSeen seen receiverId =>
    simp only [RelayEvent.receiverId] at hrcv
    simp [handle, onRelay, onSendSeen, hrcv]
  | sendNewMsgCount receiverId =>
    simp only [RelayEvent.receiverId] at hrcv
    simp [handle, onRelay, onSendNewMsgCount, hrcv]

/-- A relay handler with no looked-up receiver emits nothing, whatever the sender
lookup does. -/
theorem relay_miss_emits_nothing (findById : UserStore) (s : String) (ev : RelayEvent)
    (r : Registry) (hnone : getOnlineUser ev.receiverId r = none) :
    (handle findById s (.relay ev) r).2.emitted = [] := by
  cases ev with
  | sendNotification senderId receiverId type =>
    simp only [RelayEvent.receiverId] at hnone
    simp only [handle, onRelay, onSendNotification, hnone]
    cases findById senderId with
    | error msg => rfl
    | ok user => rfl
  | sendMessage receiverId data =>
    simp only [RelayEvent.receiverId] at hnone
    simp [handle, onRelay, onSendMessage, hnone]
  | isTyping typing receiverId =>
    simp only [RelayEvent.receiverId] at hnone
    simp [handle, onRelay, onIsTyping, hnone]
  | notTyping typing receiverId =>
    simp only [RelayEvent.receiverId] at hnone
    simp [handle, onRelay, onNotTyping, hnone]
  | sendSeen seen receiverId =>
    simp only [RelayEvent.receiverId] at hnone
    simp [handle, onRelay, onSendSeen, hnone]
  | sendNewMsgCount receiverId =>
    simp only [RelayEvent.receiverId] at hnone
    simp [handle, onRelay, onSendNewMsgCount, hnone]

theorem relay_registry_unchanged (findById : UserStore) (s : String) (ev : RelayEvent)
    (r : Registry) : (handle findById s (.relay ev) r).1 = r := by
  cases ev <;> rfl

/-! ## Claims on the relay and the connection handlers -/

/-- C4. A relay miss is not silent for `send-notification` when the sender lookup
rejects: with an empty registry (so the receiver `u9` has no entry) the handler
ends with the error of the rejected `User.findById`, because the lookup is awaited
before `if (!receiver) return` is reached. -/
theorem relay_miss_notification_rejects :
    getOnlineUser "u9" [] = none
      ∧ (handle rejectingStore "s1"
            (.relay (.sendNotification "not-an-object-id" "u9" (.str "like"))) []).2.error
          = some "CastError: Cast to ObjectId failed"
      ∧ (handle rejectingStore "s1"
            (.relay (.sendNotification "not-an-object-id" "u9" (.str "like"))) []).2.emitted
          = [] :=
  ⟨rfl, rfl, rfl⟩

/-- C5, as stated, fails: with `s2` registered for `u2`, a `new-user` event for `u1`
on connection `s1` makes no emission that reaches the open connection `s2`. -/
theorem new_user_not_broadcast :
    ¬ (∀ conn ∈ ["s1", "s2"],
        ∃ e ∈ (handle oneUserStore "s1" (.newUser "u1")
                [{ socketId := "s2", userId := "u2" }]).2.emitted,
          e.reaches conn = true ∧ e.event = "is-online") := by
  intro h
  obtain ⟨e, he, hreach, _⟩ := h "s2" (by simp)
  simp only [handle, onNewUser, List.mem_singleton] at he
  subst he
  revert hreach
  decide

/-- C5, amended. After a `new-user` event on connection `s` the registry is the one
`addNewUser` yields, the one emission is an `is-online` event carrying the user ids
of that registry, it reaches `s`, and it reaches no other connection. -/
theorem new_user_emits_online_ids_to_sender (findById : UserStore) (s u : String)
    (r : Registry) :
    (handle findById s (.newUser u) r).1 = addNewUser s u r
      ∧ (∃ e, (handle findById s (.newUser u) r).2.emitted = [e]
          ∧ e.event = "is-online"
          ∧ e.payload = .arr ((onlineIds (handle findById s (.newUser u) r).1).map JsVal.str)
          ∧ e.reaches s = true
          ∧ ∀ conn, conn ≠ s → e.reaches conn = false)
      ∧ (handle findById s (.newUser u) r).2.error = none := by
  refine ⟨rfl, ⟨_, rfl, rfl, rfl, ?_, ?_⟩, rfl⟩
  · simp [Emission.reaches]
  · intro conn hne
    simp only [Emission.reaches]
    simpa using fun hh => hne hh.symm

/-- C6. On `send-message` with payload `{ receiverId, data }`: when `receiverId` is
looked up to an entry with socket id `h`, the first emission is `get-message`
carrying `data` itself, addressed to `h`, and no emission reaches a connection
other than `h`; and a `get-message` carrying `data` is emitted if and only if
`receiverId` has an entry in the registry. -/
theorem send_message_forwarded_iff_registered (findById : UserStore) (s receiverId : String)
    (data : JsVal) (r : Registry) :
    (∀ rcv, getOnlineUser receiverId r = some rcv →
        (∃ rest, (handle findById s (.relay (.sendMessage receiverId data)) r).2.emitted
            = { target := .room rcv.socketId, event := "get-message", payload := data } :: rest)
          ∧ (∀ e ∈ (handle findById s (.relay (.sendMessage receiverId data)) r).2.emitted,
              e.reaches rcv.socketId = true
                ∧ ∀ conn, conn ≠ rcv.socketId → e.reaches conn = false))
      ∧ ((∃ e ∈ (handle findById s (.relay (.sendMessage receiverId data)) r).2.emitted,
            e.event = "get-message" ∧ e.payload = data)
          ↔ ∃ x ∈ r, x.userId = receiverId) := by
  constructor
  · intro rcv hrcv
    constructor
    · simp only [handle, onRelay, onSendMessage, hrcv]
      cases data.prop "_id" with
      | error msg => exact ⟨_, rfl⟩
      | ok msgId => exact ⟨_, rfl⟩
    · intro e he
      have ht := relay_emits_only_to_receiver findById s (.sendMessage receiverId data) r rcv
        hrcv e he
      constructor
      · simp [Emission.reaches, ht]
      · intro conn hne
        simp only [Emission.reaches, ht]
        simpa using fun hh => hne hh.symm
  · rw [← getOnlineUser_isSome_iff]
    constructor
    · rintro ⟨e, he, _, _⟩
      cases hfind : getOnlineUser receiverId r with
      | none =>
        have hempty := relay_miss_emits_nothing findById s (.sendMessage receiverId data) r
          hfind
        rw [hempty] at he
        simp at he
      | some rcv => exact ⟨rcv, rfl⟩
    · rintro ⟨rcv, hrcv⟩
      refine ⟨{ target := .room rcv.socketId, event := "get-message", payload := data },
        ?_, rfl, rfl⟩
      simp only [handle, onRelay, onSendMessage, hrcv]
      cases data.prop "_id" with
      | error msg => simp
      | ok msgId => simp

theorem send_message_forwarded_iff_registered_witness :
    (∃ rest, (handle oneUserStore "s1"
          (.relay (.sendMessage "u2" (.obj [("_id", .str "m1"), ("text", .str "hello")])))
          [{ socketId := "s2", userId := "u2" }]).2.emitted
        = { target := .room "s2", event := "get-message",
            payload := .obj [("_id", .str "m1"), ("text", .str "hello")] } :: rest)
      ∧ (∀ e ∈ (handle oneUserStore "s1"
          (.relay (.sendMessage "u2" (.obj [("_id", .str "m1"), ("text", .str "hello")])))
          [{ socketId := "s2", userId := "u2" }]).2.emitted,
          e.reaches "s2" = true ∧ ∀ conn, conn ≠ "s2" → e.reaches conn = false) :=
  (send_message_forwarded_iff_registered oneUserStore "s1" "u2"
      (.obj [("_id", .str "m1"), ("text", .str "hello")])
      [{ socketId := "s2", userId := "u2" }]).1
    { socketId := "s2", userId := "u2" } (by decide)

/-- C7, as stated, fails: connection `s1` has no entry in the registry, yet a
`send-message` arriving on it for the registered user `u2` is forwarded. -/
theorem unannounced_sender_is_relayed :
    (∀ e ∈ ([{ socketId := "s2", userId := "u2" }] : Registry), e.socketId ≠ "s1")
      ∧ (handle oneUserStore "s1"
            (.relay (.sendMessage "u2" (.obj [("_id", .str "m1")])))
            [{ socketId := "s2", userId := "u2" }]).2.emitted.length = 2
      ∧ (∃ e ∈ (handle oneUserStore "s1"
            (.relay (.sendMessage "u2" (.obj [("_id", .str "m1")])))
            [{ socketId := "s2", userId := "u2" }]).2.emitted,
          e.event = "get-message" ∧ e.reaches "s2" = true) := by
  refine ⟨by decide, by decide, ?_⟩
  exact ⟨{ target := .room "s2", event := "get-message",
           payload := .obj [("_id", .str "m1")] }, List.mem_cons_self _ _, rfl, by decide⟩

/-- C7, amended. A relay event is handled the same on every connection `s`, whether
or not `s` has an entry in the registry: the result does not depend on `s`, the
registry stays as it was, nothing is emitted when the payload's `receiverId` has no
entry, and otherwise no emission reaches a connection other than the one
registered for `receiverId`. -/
theorem relay_ignores_sender_state (findById : UserStore) (s : String) (ev : RelayEvent)
    (r : Registry) :
    (∀ s', handle findById s' (.relay ev) r = handle findById s (.relay ev) r)
      ∧ (handle findById s (.relay ev) r).1 = r
      ∧ (getOnlineUser ev.receiverId r = none →
          (handle findById s (.relay ev) r).2.emitted = [])
      ∧ (∀ rcv, getOnlineUser ev.receiverId r = some rcv →
          ∀ e ∈ (handle findById s (.relay ev) r).2.emitted,
            ∀ conn, conn ≠ rcv.socketId → e.reaches conn = false) := by
  refine ⟨fun s' => by cases ev <;> rfl, relay_registry_unchanged findById s ev r,
    relay_miss_emits_nothing findById s ev r, ?_⟩
  intro rcv hrcv e he conn hne
  have ht := relay_emits_only_to_receiver findById s ev r rcv hrcv e he
  simp only [Emission.reaches, ht]
  simpa using fun hh => hne hh.symm

theorem relay_ignores_sender_state_witness :
    (∀ e ∈ ([{ socketId := "s2", userId := "u2" }] : Registry), e.socketId ≠ "s1")
      ∧ getOnlineUser "u7" [{ socketId := "s2", userId := "u2" }] = none
      ∧ (handle oneUserStore "s1" (.relay (.isTyping (.bool true) "u7"))
          [{ socketId := "s2", userId := "u2" }]).2.emitted = [] :=
  ⟨by decide, by decide,
   (relay_ignores_sender_state oneUserStore "s1" (.isTyping (.bool true) "u7")
      [{ socketId := "s2", userId := "u2" }]).2.2.1 (by decide)⟩

/-! ### Conversation store lemmas -/

theorem matchesAll_iff (a b : String) (c : Conversation) :
    matchesAll a b c = true ↔ a ∈ c.members ∧ b ∈ c.members := by
  simp [matchesAll]

theorem matchesAll_comm (a b : String) : matchesAll a b = matchesAll b a := by
  funext c
  simp [matchesAll, Bool.and_comm]

theorem findOneAll_comm (a b : String) (store : ConvStore) :
    findOneAll a b store = findOneAll b a store := by
  unfold findOneAll
  rw [matchesAll_comm]

theorem findOneAll_isSome_iff (a b : String) (store : ConvStore) :
    (∃ c, findOneAll a b store = some c) ↔ ∃ c ∈ store, a ∈ c.members ∧ b ∈ c.members := by
  constructor
  · rintro ⟨c, hc⟩
    unfold findOneAll at hc
    exact ⟨c, List.mem_of_find?_eq_some hc, (matchesAll_iff a b c).1 (List.find?_some hc)⟩
  · rintro ⟨c, hc, hm⟩
    cases hfind : findOneAll a b store with
    | some d => exact ⟨d, rfl⟩
    | none =>
      unfold findOneAll at hfind
      have hno := List.find?_eq_none.1 hfind c hc
      exact absurd ((matchesAll_iff a b c).2 hm) hno

theorem post_existing_iff (env : SaveEnv) (a b : String) (store : ConvStore) :
    (postConversation env a b store).2.existingConversation = some true
      ↔ ∃ c, findOneAll a b store = some c := by
  unfold postConversation
  cases hfind : findOneAll a b store with
  | some c => simp [PostResponse.existingConversation]
  | none =>
    cases hsave : env.saveError with
    | none => simp [PostResponse.existingConversation]
    | some message => simp [PostResponse.existingConversation]

theorem pairwise_post (env : SaveEnv) (a b : String) (store : ConvStore)
    (hinv : store.Pairwise (fun c d => ¬ sameMemberSet c d)) :
    (postConversation env a b store).1.Pairwise (fun c d => ¬ sameMemberSet c d) := by
  unfold postConversation
  cases hfind : findOneAll a b store with
  | some c => exact hinv
  | none =>
    cases hsave : env.saveError with
    | some message => exact hinv
    | none =>
      show (store ++ [_]).Pairwise _
      rw [List.pairwise_append]
      refine ⟨hinv, List.pairwise_singleton _ _, ?_⟩
      intro c hc d hd hsame
      rw [List.mem_singleton] at hd
      subst hd
      unfold findOneAll at hfind
      have hno := List.find?_eq_none.1 hfind c hc
      apply hno
      rw [matchesAll_iff]
      exact ⟨(hsame a).2 (by simp), (hsame b).2 (by simp)⟩

theorem pairwise_run (call : ConvCall) (store : ConvStore)
    (hinv : store.Pairwise (fun c d => ¬ sameMemberSet c d)) :
    (call.run store).Pairwise (fun c d => ¬ sameMemberSet c d) := by
  cases call with
  | post env a b => exact pairwise_post env a b store hinv
  | deletePair dbError a b =>
    cases dbError with
    | none => exact hinv.sublist (List.eraseP_sublist store)
    | some msg => exact hinv
  | deleteId dbError convoId =>
    cases dbError with
    | none => exact hinv.sublist (List.eraseP_sublist store)
    | some msg => exact hinv

theorem pairwise_runConvCalls (calls : List ConvCall) :
    ∀ store : ConvStore, store.Pairwise (fun c d => ¬ sameMemberSet c d) →
      (runConvCalls calls store).Pairwise (fun c d => ¬ sameMemberSet c d) := by
  induction calls with
  | nil => intro store h; exact h
  | cons c cs ih => intro store h; exact ih (c.run store) (pairwise_run c store h)

/-! ## Claims on the conversation store -/

/-- C8. After `POST /conversations` with `(senderId = a, receiverId = b)` has succeeded
with the conversation id `id1` (found or created), a following `POST /conversations`
with `(senderId = b, receiverId = a)` leaves the collection as it is and responds
`existingConversation = true` with that same `_id`. -/
theorem post_conversation_swapped_finds_first (store : ConvStore) (a b : String)
    (env1 env2 : SaveEnv) (id1 : String)
    (hfirst : (postConversation env1 a b store).2.convId = some id1) :
    postConversation env2 b a (postConversation env1 a b store).1
      = ((postConversation env1 a b store).1, .existing id1) := by
  unfold postConversation at hfirst ⊢
  cases hfind : findOneAll a b store with
  | some c =>
    simp only [hfind, PostResponse.convId, Option.some.injEq] at hfirst
    simp only [hfind]
    rw [findOneAll_comm b a, hfind]
    simp only [hfirst]
  | none =>
    cases hsave : env1.saveError with
    | some message => simp [hfind, hsave, PostResponse.convId] at hfirst
    | none =>
      simp only [hfind, hsave, PostResponse.convId, Option.some.injEq] at hfirst
      simp only [hfind, hsave]
      have hnone : store.find? (matchesAll b a) = none := by
        rw [matchesAll_comm b a]; exact hfind
      have hnew : findOneAll b a (store ++
          [{ _id := env1.newId, members := [a, b], latestText := none, senderId := none,
             checked := true }])
          = some { _id := env1.newId, members := [a, b], latestText := none,
                   senderId := none, checked := true } := by
        unfold findOneAll
        rw [List.find?_append, hnone]
        simp [matchesAll]
      rw [hnew]
      simp only [hfirst]

theorem post_conversation_swapped_finds_first_witness :
    (postConversation { newId := "c1", saveError := none } "ann" "bob" []).2.convId = some "c1"
      ∧ postConversation { newId := "c2", saveError := none } "bob" "ann"
          (postConversation { newId := "c1", saveError := none } "ann" "bob" []).1
        = ((postConversation { newId := "c1", saveError := none } "ann" "bob" []).1,
           .existing "c1") :=
  ⟨by decide,
   post_conversation_swapped_finds_first [] "ann" "bob"
     { newId := "c1", saveError := none } { newId := "c2", saveError := none } "c1"
     (by decide)⟩

/-- C9, as stated, fails: after `POST /conversations` for `(ann, cat)` the collection
holds one conversation with members `[ann, cat]`; a `POST` for `(ann, ann)` then
responds `existingConversation = true`, although no stored conversation has the
member set `{ann}`. -/
theorem post_conversation_matches_superset :
    runConvCalls [.post { newId := "c1", saveError := none } "ann" "cat"] []
        = [{ _id := "c1", members := ["ann", "cat"], latestText := none, senderId := none,
             checked := true }]
      ∧ (postConversation { newId := "c2", saveError := none } "ann" "ann"
            (runConvCalls [.post { newId := "c1", saveError := none } "ann" "cat"] [])).2
          = .existing "c1"
      ∧ ¬ (∃ c ∈ runConvCalls [.post { newId := "c1", saveError := none } "ann" "cat"] [],
            ∀ x, x ∈ c.members ↔ (x = "ann" ∨ x = "ann")) := by
  refine ⟨by decide, by decide, ?_⟩
  rintro ⟨c, hc, hset⟩
  have hstore : runConvCalls [.post { newId := "c1", saveError := none } "ann" "cat"] []
      = [{ _id := "c1", members := ["ann", "cat"], latestText := none, senderId := none,
           checked := true }] := by decide
  rw [hstore, List.mem_singleton] at hc
  subst hc
  have hcat := (hset "cat").1 (by simp)
  revert hcat
  decide

/-- C9, amended. The find step of `POST /conversations` matches by containment: the
response has `existingConversation = true` if and only if some stored conversation
has both `a` and `b` among its members. When `a` differs from `b` and every stored
conversation has exactly two member entries, that is the same as some stored
conversation having the member set `{a, b}`. -/
theorem post_conversation_existing_iff_contains (env : SaveEnv) (a b : String)
    (store : ConvStore) :
    ((postConversation env a b store).2.existingConversation = some true
        ↔ ∃ c ∈ store, a ∈ c.members ∧ b ∈ c.members)
      ∧ (a ≠ b → (∀ c ∈ store, c.members.length = 2) →
          ((postConversation env a b store).2.existingConversation = some true
            ↔ ∃ c ∈ store, ∀ x, x ∈ c.members ↔ (x = a ∨ x = b))) := by
  have hcontain : (postConversation env a b store).2.existingConversation = some true
      ↔ ∃ c ∈ store, a ∈ c.members ∧ b ∈ c.members := by
    rw [post_existing_iff, findOneAll_isSome_iff]
  refine ⟨hcontain, ?_⟩
  intro hab hlen
  rw [hcontain]
  constructor
  · rintro ⟨c, hc, ha, hb⟩
    refine ⟨c, hc, ?_⟩
    have hl := hlen c hc
    match hm : c.members, hl with
    | [p, q], _ =>
      rw [hm] at ha hb
      simp only [List.mem_cons, List.mem_singleton, List.not_mem_nil, or_false] at ha hb ⊢
      intro x
      rcases ha with ha | ha <;> rcases hb with hb | hb
      · exact absurd (ha.trans hb.symm) hab
      · subst ha; subst hb; rfl
      · subst ha; subst hb; exact or_comm
      · exact absurd (ha.trans hb.symm) hab
  · rintro ⟨c, hc, hset⟩
    exact ⟨c, hc, (hset a).2 (Or.inl rfl), (hset b).2 (Or.inr rfl)⟩

theorem post_conversation_existing_iff_contains_witness :
    "ann" ≠ "bob"
      ∧ (∀ c ∈ ([{ _id := "c1", members := ["bob", "ann"], latestText := none,
                   senderId := none, checked := true }] : ConvStore), c.members.length = 2)
      ∧ ((postConversation { newId := "c2", saveError := none } "ann" "bob"
            [{ _id := "c1", members := ["bob", "ann"], latestText := none, senderId := none,
               checked := true }]).2.existingConversation = some true
          ↔ ∃ c ∈ ([{ _id := "c1", members := ["bob", "ann"], latestText := none,
                      senderId := none, checked := true }] : ConvStore),
              ∀ x, x ∈ c.members ↔ (x = "ann" ∨ x = "bob")) :=
  ⟨by decide, by decide,
   (post_conversation_existing_iff_contains { newId := "c2", saveError := none } "ann" "bob"
      [{ _id := "c1", members := ["bob", "ann"], latestText := none, senderId := none,
         checked := true }]).2 (by decide) (by decide)⟩

/-- C10. In every collection reached from the empty one by `POST /conversations`,
`DELETE /conversations/:userId/:friendId` and delete-by-id requests handled one
after the other, no two stored conversations have the same set of members. -/
theorem one_conversation_per_member_set (calls : List ConvCall) :
    (runConvCalls calls []).Pairwise (fun c d => ¬ sameMemberSet c d) :=
  pairwise_runConvCalls calls [] List.Pairwise.nil

/-! ### Message route lemmas -/

theorem find_findByIdAndUpdate (id : String) (update : Conversation → Conversation)
    (hid : ∀ c, (update c)._id = c._id) (store : ConvStore) (c : Conversation)
    (hfound : findConversationById id store = some c) :
    findConversationById id (findByIdAndUpdate id update store) = some (update c) := by
  induction store with
  | nil => simp [findConversationById] at hfound
  | cons d rest ih =>
    unfold findConversationById at hfound ih ⊢
    by_cases hd : d._id = id
    · have hdc : d = c := by simpa [List.find?_cons, hd] using hfound
      subst hdc
      simp [findByIdAndUpdate, hd, List.find?_cons, hid]
    · have hrest : rest.find? (fun c => c._id == id) = some c := by
        simpa [List.find?_cons, hd] using hfound
      simp [findByIdAndUpdate, hd, List.find?_cons, ih hrest]

theorem findByIdAndUpdate_of_absent (id : String) (update : Conversation → Conversation)
    (store : ConvStore) (habs : ∀ c ∈ store, c._id ≠ id) :
    findByIdAndUpdate id update store = store := by
  induction store with
  | nil => rfl
  | cons d rest ih =>
    have hd : d._id ≠ id := habs d (List.mem_cons_self _ _)
    have hrest : ∀ c ∈ rest, c._id ≠ id := fun c hc => habs c (List.mem_cons_of_mem _ hc)
    simp [findByIdAndUpdate, hd, ih hrest]

/-! ## Claims on the message route -/

/-- C11. When conversation `cid` exists and both writes succeed,
`POST /messages/cid` with body `{ sender, text, ... }` appends exactly one message to
the stored messages, which are otherwise unchanged, responds with that message, and
leaves conversation `cid` as it was except for `checked = false`,
`latestText = text` and `senderId = sender`. -/
theorem post_message_appends_and_updates_summary (env : MessageEnv) (cid : String)
    (body : MessageBody) (convs : ConvStore) (msgs : List Message) (c : Conversation)
    (hexists : findConversationById cid convs = some c)
    (hupdate : env.updateError = none) (hsave : env.saveError = none) :
    (postMessage env cid body convs msgs).1.2
        = msgs ++ [{ _id := env.newId, conversationId := body.conversationId,
                     sender := body.sender, text := body.text }]
      ∧ findConversationById cid (postMessage env cid body convs msgs).1.1
          = some { c with latestText := some body.text, checked := false,
                          senderId := some body.sender }
      ∧ (postMessage env cid body convs msgs).2
          = .saved { _id := env.newId, conversationId := body.conversationId,
                     sender := body.sender, text := body.text } := by
  simp only [postMessage, hupdate, hsave, true_and, and_true]
  exact find_findByIdAndUpdate cid (summaryUpdate body) (fun _ => rfl) convs c hexists

theorem post_message_appends_and_updates_summary_witness :
    findConversationById "c1" oneConversation
        = some { _id := "c1", members := ["ann", "bob"], latestText := none,
                 senderId := none, checked := true }
      ∧ (postMessage { newId := "m1", updateError := none, saveError := none } "c1"
            { conversationId := some "c1", sender := "ann", text := "hello" }
            oneConversation []).1.2
          = [{ _id := "m1", conversationId := some "c1", sender := "ann", text := "hello" }]
      ∧ findConversationById "c1"
          (postMessage { newId := "m1", updateError := none, saveError := none } "c1"
            { conversationId := some "c1", sender := "ann", text := "hello" }
            oneConversation []).1.1
          = some { _id := "c1", members := ["ann", "bob"], latestText := some "hello",
                   senderId := some "ann", checked := false } :=
  ⟨by decide,
   (post_message_appends_and_updates_summary
      { newId := "m1", updateError := none, saveError := none } "c1"
      { conversationId := some "c1", sender := "ann", text := "hello" }
      oneConversation []
      { _id := "c1", members := ["ann", "bob"], latestText := none, senderId := none,
        checked := true }
      (by decide) rfl rfl).1,
   (post_message_appends_and_updates_summary
      { newId := "m1", updateError := none, saveError := none } "c1"
      { conversationId := some "c1", sender := "ann", text := "hello" }
      oneConversation []
      { _id := "c1", members := ["ann", "bob"], latestText := none, senderId := none,
        checked := true }
      (by decide) rfl rfl).2.1⟩

/-- C12. The stored message references the conversation named in the body, not the
one named by the route parameter: `POST /messages/c1` with a body whose
`conversationId` is `c2` updates the summary of `c1`, stores a message referencing
`c2`, and `GET /messages/c1` afterwards does not include it. -/
theorem post_message_ignores_route_parameter :
    (postMessage { newId := "m1", updateError := none, saveError := none } "c1"
        { conversationId := some "c2", sender := "ann", text := "hello" }
        oneConversation []).1.2
        = [{ _id := "m1", conversationId := some "c2", sender := "ann", text := "hello" }]
      ∧ findConversationById "c1"
          (postMessage { newId := "m1", updateError := none, saveError := none } "c1"
            { conversationId := some "c2", sender := "ann", text := "hello" }
            oneConversation []).1.1
          = some { _id := "c1", members := ["ann", "bob"], latestText := some "hello",
                   senderId := some "ann", checked := false }
      ∧ getMessages "c1"
          (postMessage { newId := "m1", updateError := none, saveError := none } "c1"
            { conversationId := some "c2", sender := "ann", text := "hello" }
            oneConversation []).1.2
          = [] := by
  decide

/-- C13, as stated, fails: when the message insert of `POST /messages/c1` is rejected
the response is an error and no message is stored, yet the summary of conversation
`c1` has already been rewritten. -/
theorem post_message_failed_insert_changes_summary :
    (postMessage { newId := "m1", updateError := none, saveError := some "ValidationError" }
        "c1" { conversationId := some "c1", sender := "ann", text := "hello" }
        oneConversation []).2 = .failed "ValidationError"
      ∧ (postMessage { newId := "m1", updateError := none, saveError := some "ValidationError" }
          "c1" { conversationId := some "c1", sender := "ann", text := "hello" }
          oneConversation []).1.2 = []
      ∧ findConversationById "c1" oneConversation
          = some { _id := "c1", members := ["ann", "bob"], latestText := none,
                   senderId := none, checked := true }
      ∧ findConversationById "c1"
          (postMessage
            { newId := "m1", updateError := none, saveError := some "ValidationError" }
            "c1" { conversationId := some "c1", sender := "ann", text := "hello" }
            oneConversation []).1.1
          = some { _id := "c1", members := ["ann", "bob"], latestText := some "hello",
                   senderId := some "ann", checked := false } := by
  decide

/-- C13, amended. The summary is written before the message. When the message insert
is rejected, the request responds with status 500, no message is stored, and the
conversations are those after the summary update (the parent conversation, if it
exists, has `latestText = text`, `senderId = sender`, `checked = false`). When the
summary update is rejected, the request responds with status 500 and nothing is
changed. Whenever a message is stored, the summary update has been applied. -/
theorem post_message_partial_failure (env : MessageEnv) (cid : String) (body : MessageBody)
    (convs : ConvStore) (msgs : List Message) :
    (∀ message, env.updateError = none → env.saveError = some message →
        (postMessage env cid body convs msgs).2 = .failed message
          ∧ (postMessage env cid body convs msgs).2.status = 500
          ∧ (postMessage env cid body convs msgs).1.2 = msgs
          ∧ (postMessage env cid body convs msgs).1.1
              = findByIdAndUpdate cid (summaryUpdate body) convs
          ∧ ∀ c, findConversationById cid convs = some c →
              findConversationById cid (postMessage env cid body convs msgs).1.1
                = some { c with latestText := some body.text, checked := false,
                                senderId := some body.sender })
      ∧ (∀ message, env.updateError = some message →
          postMessage env cid body convs msgs = ((convs, msgs), .failed message))
      ∧ (∀ m, (postMessage env cid body convs msgs).2 = .saved m →
          (postMessage env cid body convs msgs).1.1
            = findByIdAndUpdate cid (summaryUpdate body) convs) := by
  refine ⟨?_, ?_, ?_⟩
  · intro message hupdate hsave
    simp only [postMessage, hupdate, hsave, MessageResponse.status, true_and]
    intro c hc
    exact find_findByIdAndUpdate cid (summaryUpdate body) (fun _ => rfl) convs c hc
  · intro message hupdate
    simp [postMessage, hupdate]
  · intro m hm
    unfold postMessage at hm ⊢
    cases hupdate : env.updateError with
    | some message => simp [hupdate] at hm
    | none =>
      cases hsave : env.saveError with
      | some message => simp [hupdate, hsave] at hm
      | none => rfl

theorem post_message_partial_failure_witness :
    (postMessage { newId := "m1", updateError := none, saveError := some "ValidationError" }
        "c1" { conversationId := some "c1", sender := "ann", text := "hello" }
        oneConversation []).2.status = 500
      ∧ (postMessage { newId := "m1", updateError := none, saveError := some "ValidationError" }
          "c1" { conversationId := some "c1", sender := "ann", text := "hello" }
          oneConversation []).1.2 = [] :=
  ⟨((post_message_partial_failure
        { newId := "m1", updateError := none, saveError := some "ValidationError" }
        "c1" { conversationId := some "c1", sender := "ann", text := "hello" }
        oneConversation []).1 "ValidationError" rfl rfl).2.1,
   ((post_message_partial_failure
        { newId := "m1", updateError := none, saveError := some "ValidationError" }
        "c1" { conversationId := some "c1", sender := "ann", text := "hello" }
        oneConversation []).1 "ValidationError" rfl rfl).2.2.1⟩

/-! ## Claims on reconnects -/

theorem reconnectSequence_eq (h1 h2 u : String) (r : Registry)
    (hfresh : ∀ e ∈ r, e.userId ≠ u) :
    reconnectSequence h1 h2 u r = removeUser h1 r := by
  have hfirst := addNewUser_of_absent h1 u r hfresh
  have hsecond : addNewUser h2 u (addNewUser h1 u r) = addNewUser h1 u r := by
    apply addNewUser_of_present
    rw [hfirst]
    exact ⟨{ socketId := h1, userId := u }, by simp, rfl⟩
  unfold reconnectSequence
  rw [hsecond, hfirst]
  simp [removeUser, List.filter_append]

theorem removeUser_keeps_absent (h u : String) (r : Registry)
    (hfresh : ∀ e ∈ r, e.userId ≠ u) : ∀ e ∈ removeUser h r, e.userId ≠ u := by
  intro e he
  exact hfresh e (List.mem_of_mem_filter he)

/-- C16, as stated, fails in its last part: when connection `s2` already holds an entry
for another user `w`, the sequence `addNewUser(s1, u)`, `addNewUser(s2, u)`,
`removeUser(s1)` leaves that entry in place, and the later `removeUser(s2)` removes
it, so it does change the registry. -/
theorem reconnect_later_remove_changes_registry :
    runCalls [.add "s2" "w"] [] = [{ socketId := "s2", userId := "w" }]
      ∧ (∀ e ∈ runCalls [.add "s2" "w"] [], e.userId ≠ "u")
      ∧ "s1" ≠ "s2"
      ∧ reconnectSequence "s1" "s2" "u" (runCalls [.add "s2" "w"] [])
          = [{ socketId := "s2", userId := "w" }]
      ∧ removeUser "s2" (reconnectSequence "s1" "s2" "u" (runCalls [.add "s2" "w"] []))
          ≠ reconnectSequence "s1" "s2" "u" (runCalls [.add "s2" "w"] []) := by
  decide

/-- C16, amended. Starting from a registry without `u`, the sequence
`addNewUser(h1, u)`, `addNewUser(h2, u)`, `removeUser(h1)` ends in a registry where
`getOnlineUser(u)` finds nothing and `u` is not among the online ids, although `h2`
announced `u`; a later `removeUser(h2)` leaves `u` not found, and it changes nothing
when `h2` held no entry in the starting registry. -/
theorem reconnect_evicts_user (r : Registry) (u h1 h2 : String)
    (hfresh : ∀ e ∈ r, e.userId ≠ u) :
    getOnlineUser u (reconnectSequence h1 h2 u r) = none
      ∧ u ∉ onlineIds (reconnectSequence h1 h2 u r)
      ∧ getOnlineUser u (removeUser h2 (reconnectSequence h1 h2 u r)) = none
      ∧ ((∀ e ∈ r, e.socketId ≠ h2) →
          removeUser h2 (reconnectSequence h1 h2 u r) = reconnectSequence h1 h2 u r) := by
  rw [reconnectSequence_eq h1 h2 u r hfresh]
  have hkept := removeUser_keeps_absent h1 u r hfresh
  refine ⟨(getOnlineUser_eq_none_iff u _).2 hkept, ?_, ?_, ?_⟩
  · intro hmem
    unfold onlineIds at hmem
    obtain ⟨e, he, heu⟩ := List.mem_map.1 hmem
    exact hkept e he heu
  · exact (getOnlineUser_eq_none_iff u _).2
      (removeUser_keeps_absent h2 u _ hkept)
  · intro hno
    unfold removeUser
    rw [List.filter_eq_self]
    intro e he
    have her : e ∈ r := List.mem_of_mem_filter he
    simpa using hno e her

theorem reconnect_evicts_user_witness :
    (∀ e ∈ ([{ socketId := "s0", userId := "bob" }] : Registry), e.userId ≠ "alice")
      ∧ getOnlineUser "alice"
          (reconnectSequence "s1" "s2" "alice" [{ socketId := "s0", userId := "bob" }])
        = none
      ∧ removeUser "s2"
          (reconnectSequence "s1" "s2" "alice" [{ socketId := "s0", userId := "bob" }])
        = reconnectSequence "s1" "s2" "alice" [{ socketId := "s0", userId := "bob" }] :=
  ⟨by decide,
   (reconnect_evicts_user [{ socketId := "s0", userId := "bob" }] "alice" "s1" "s2"
      (by decide)).1,
   (reconnect_evicts_user [{ socketId := "s0", userId := "bob" }] "alice" "s1" "s2"
      (by decide)).2.2.2 (by decide)⟩

/-! ### Token check lemmas -/

theorem bearer_data : "Bearer ".data = ['B', 'e', 'a', 'r', 'e', 'r', ' '] := by
  decide

theorem dropWhile_whitespace_append (ws rest : List Char)
    (hws : ∀ c ∈ ws, isJsWhiteSpace c = true)
    (hrest : ∀ c, rest.head? = some c → isJsWhiteSpace c = false) :
    (ws ++ rest).dropWhile isJsWhiteSpace = rest := by
  induction ws with
  | nil =>
    cases rest with
    | nil => rfl
    | cons c cs =>
      have hc := hrest c rfl
      simp [List.dropWhile_cons, hc]
  | cons w ws ih =>
    have hw := hws w (List.mem_cons_self _ _)
    have hws' : ∀ c ∈ ws, isJsWhiteSpace c = true :=
      fun c hc => hws c (List.mem_cons_of_mem _ hc)
    simp [List.dropWhile_cons, hw, ih hws']

theorem bearerToken_strips (ws rest : List Char)
    (hws : ∀ c ∈ ws, isJsWhiteSpace c = true)
    (hrest : ∀ c, rest.head? = some c → isJsWhiteSpace c = false) :
    bearerToken (String.mk ("Bearer ".data ++ ws ++ rest)) = String.mk rest := by
  unfold bearerToken
  rw [bearer_data]
  simp only [List.cons_append, List.nil_append, List.isPrefixOf, beq_self_eq_true,
    Bool.and_self, Bool.true_and, if_true, List.drop_succ_cons, List.drop_zero]
  rw [dropWhile_whitespace_append ws rest hws hrest]

theorem bearerToken_empty : bearerToken "" = "" := by
  decide

/-! ## Claims on the token check and the friends controller -/

/-- C14. `verifyToken` calls `next` if and only if the Authorization header is present
and verification of its token succeeds, the token being the header with one leading
`Bearer ` and the white space after it removed (a header that does not start with
`Bearer ` is verified as it is); `req.user` is then the verified payload and no
response is sent. A missing header gives status 403, and a failed verification an
error response (500 with the message, 403 for an empty header), both without `next`. -/
theorem verifyToken_passes_iff_verified (decode : String → Except String JsVal)
    (header : Option String) :
    ((verifyToken decode header).nextCalled = true
        ↔ ∃ token payload, header = some token
            ∧ jwtVerify decode (bearerToken token) = .ok payload)
      ∧ (∀ token payload, header = some token →
          jwtVerify decode (bearerToken token) = .ok payload →
          (verifyToken decode header).reqUser = some payload
            ∧ (verifyToken decode header).status = none)
      ∧ (header = none →
          (verifyToken decode header).status = some 403
            ∧ (verifyToken decode header).nextCalled = false)
      ∧ (∀ token message, header = some token →
          jwtVerify decode (bearerToken token) = .error message →
          (verifyToken decode header).nextCalled = false
            ∧ (token = "" → (verifyToken decode header).status = some 403)
            ∧ (token ≠ "" → (verifyToken decode header).status = some 500
                ∧ (verifyToken decode header).body
                    = some (.obj [("error", .str message)])))
      ∧ (∀ ws rest : List Char, (∀ c ∈ ws, isJsWhiteSpace c = true) →
          (∀ c, rest.head? = some c → isJsWhiteSpace c = false) →
          bearerToken (String.mk ("Bearer ".data ++ ws ++ rest)) = String.mk rest)
      ∧ (∀ token : String, "Bearer ".data.isPrefixOf token.data = false →
          bearerToken token = token) := by
  have hempty : ∀ payload, jwtVerify decode (bearerToken "") ≠ .ok payload := by
    intro payload h
    rw [bearerToken_empty] at h
    simp [jwtVerify] at h
  refine ⟨?_, ?_, ?_, ?_, bearerToken_strips, ?_⟩
  · cases header with
    | none => simp [verifyToken]
    | some token =>
      by_cases ht : token = ""
      · subst ht
        constructor
        · intro h
          simp [verifyToken] at h
        · rintro ⟨token, payload, htok, hok⟩
          cases htok
          exact absurd hok (hempty payload)
      · cases hv : jwtVerify decode (bearerToken token) with
        | ok payload => simp [verifyToken, ht, hv]
        | error message => simp [verifyToken, ht, hv]
  · intro token payload hh hok
    subst hh
    by_cases ht : token = ""
    · subst ht
      exact absurd hok (hempty payload)
    · simp [verifyToken, ht, hok]
  · intro hh
    subst hh
    simp [verifyToken]
  · intro token message hh herr
    subst hh
    by_cases ht : token = ""
    · subst ht
      simp [verifyToken]
    · simp [verifyToken, ht, herr]
  · intro token hpre
    simp [bearerToken, hpre]

theorem verifyToken_passes_iff_verified_witness :
    jwtVerify sampleDecode (bearerToken "Bearer  good.jwt.token")
        = .ok (.obj [("id", .str "u1")])
      ∧ (verifyToken sampleDecode (some "Bearer  good.jwt.token")).reqUser
          = some (.obj [("id", .str "u1")])
      ∧ (verifyToken sampleDecode (some "Bearer  good.jwt.token")).status = none :=
  have htoken : bearerToken "Bearer  good.jwt.token" = "good.jwt.token" := by decide
  have hok : jwtVerify sampleDecode (bearerToken "Bearer  good.jwt.token")
      = .ok (.obj [("id", .str "u1")]) := by
    rw [htoken]
    simp [jwtVerify, sampleDecode]
  ⟨hok,
   (verifyToken_passes_iff_verified sampleDecode (some "Bearer  good.jwt.token")).2.1
      "Bearer  good.jwt.token" (.obj [("id", .str "u1")]) rfl hok⟩

/-- What the branch statement of `addRemoveFriend` does to the two friend lists: in
the remove branch the user's list loses `friendId` and the friend's list loses every
entry; in the add branch each list gets the other id appended. -/
theorem toggleFriend_lists (id friendId : String) (user friend : User) :
    (friendId ∈ user.friends →
        (toggleFriend id friendId user friend).1.friends
            = user.friends.filter (fun x => x != friendId)
          ∧ (toggleFriend id friendId user friend).2.friends = [])
      ∧ (friendId ∉ user.friends →
          (toggleFriend id friendId user friend).1.friends = user.friends ++ [friendId]
            ∧ (toggleFriend id friendId user friend).2.friends = friend.friends ++ [id]) := by
  constructor
  · intro hmem
    simp [toggleFriend, hmem]
  · intro hmem
    simp [toggleFriend, hmem]

/-- C15. Removing a friend empties the friend's whole list: with `a` and `b` friends of
each other and `c` a further friend of `b`, `addRemoveFriend(a, b)` removes `b` from
the list of `a`, but leaves `b` with no friends at all, so the entry `c` of the
friend's list is not left unchanged. -/
theorem addRemoveFriend_clears_friend_list :
    findUserById "b" sampleUsers
        = some { _id := "b", firstName := "Bob", friends := ["a", "c"] }
      ∧ (addRemoveFriend { userSaveError := none, friendSaveError := none } "a" "b"
            sampleUsers).1
          = [{ _id := "a", firstName := "Ann", friends := [] },
             { _id := "b", firstName := "Bob", friends := [] },
             { _id := "c", firstName := "Cat", friends := ["b"] }]
      ∧ (addRemoveFriend { userSaveError := none, friendSaveError := none } "a" "b"
            sampleUsers).2 = .ok [] := by
  decide

end Sosmed
